/-
Verification of `tools/git_autocommit.py`, a polling autocommit script.

Shallow embedding conventions:
* External command invocations (`subprocess.run`) are modelled by an
  environment value of type `CmdRes`: either the pair of return code and raw
  captured output (stdout and stderr combined, as the script requests), or an
  exception message when the process could not be launched at all.
* Timestamps (`time.time()` readings and the numeric config fields) are
  modelled as rationals; only their ordered-field arithmetic is used by the
  script's comparisons.
* Python's `str.strip()` is modelled by `pyStrip` (dropping the six ASCII
  whitespace characters from both ends).
* Python dicts (the configuration record) are modelled as association lists
  with Python's unique-key, insertion-order semantics: `dictGet` is `d[k]`
  lookup, `dictSet` is `d[k] = v`, `dictUpdate` is `d.update(cfg)`.
* One pass of the `while True:` body is `step`, which returns the new
  `last_commit_time`, the list of shell commands issued (in order), and the
  log lines printed by the loop body.
-/
import Mathlib

namespace Autocommit

/-- JSON values, as produced by `json.load`. -/
inductive JsonVal where
  | null : JsonVal
  | bool : Bool → JsonVal
  | num : ℚ → JsonVal
  | str : String → JsonVal
  | arr : List JsonVal → JsonVal
  | obj : List (String × JsonVal) → JsonVal

/-- A Python dict with string keys, as used for the configuration record. -/
abbrev Dict := List (String × JsonVal)

/-- Python `d[k]` lookup (first matching key; Python dicts have unique keys). -/
def dictGet : Dict → String → Option JsonVal
  | [], _ => none
  | (k, v) :: rest, key => if k = key then some v else dictGet rest key

/-- Python `d.get(k, dflt)`. -/
def dictGetD (d : Dict) (key : String) (dflt : JsonVal) : JsonVal :=
  (dictGet d key).getD dflt

/-- Python `d[k] = v`: replace the entry for `k` in place, or append it. -/
def dictSet : Dict → String → JsonVal → Dict
  | [], key, v => [(key, v)]
  | (k, w) :: rest, key, v =>
      if k = key then (key, v) :: rest else (k, w) :: dictSet rest key v

/-- Python `d.update(cfg)`: set each entry of `cfg` into `d`, in order. -/
def dictUpdate (d : Dict) : Dict → Dict
  | [] => d
  | (k, v) :: rest => dictUpdate (dictSet d k v) rest

/-- Python truthiness (`bool(x)`) on JSON values. -/
def truthy : JsonVal → Bool
  | .null => false
  | .bool b => b
  | .num q => q != 0
  | .str s => s != ""
  | .arr l => !l.isEmpty
  | .obj l => !l.isEmpty

/-- The six ASCII whitespace characters stripped by Python's `str.strip()`. -/
def isPySpace (c : Char) : Bool :=
  c = ' ' || c = '\t' || c = '\n' || c = '\r' || c = '\x0b' || c = '\x0c'

/-- Strip `isPySpace` characters from both ends of a character list. -/
def stripList (l : List Char) : List Char :=
  ((l.dropWhile isPySpace).reverse.dropWhile isPySpace).reverse

/-- Python `s.strip()` (on ASCII whitespace). -/
def pyStrip (s : String) : String :=
  String.mk (stripList s.data)

/-- Outcome of one `subprocess.run` call: exception text when the process
could not be launched, otherwise return code and raw combined output. -/
abbrev CmdRes := Except String (Int × String)

/-- The `run` helper of the script: on a completed process it returns
`(completed.returncode, completed.stdout.strip())`; a launch exception `e`
is converted to the synthetic pair `(1, str(e))`. -/
def run (res : CmdRes) : Int × String :=
  match res with
  | .ok (code, out) => (code, pyStrip out)
  | .error e => (1, e)

/-- The `has_worktree_changes` helper: runs `git status --porcelain`; on a
non-zero return code it logs and returns false, otherwise it returns
`bool(out.strip())`. -/
def has_worktree_changes (res : CmdRes) : Bool :=
  if (run res).1 ≠ 0 then false
  else pyStrip (run res).2 != ""

/-- A `datetime.datetime` value (UTC, microsecond already zeroed). Valid
Python datetimes have `1 ≤ year ≤ 9999` and the usual field bounds. -/
structure PyDateTime where
  year : Nat
  month : Nat
  day : Nat
  hour : Nat
  minute : Nat
  second : Nat

/-- Two-digit zero-padded decimal field, as printed by `isoformat`. -/
def pad2 (n : Nat) : String :=
  String.mk [Nat.digitChar (n / 10 % 10), Nat.digitChar (n % 10)]

/-- Four-digit zero-padded decimal field, as printed by `isoformat` for the
year of any valid Python datetime (`year ≤ 9999`). -/
def pad4 (n : Nat) : String :=
  String.mk [Nat.digitChar (n / 1000 % 10), Nat.digitChar (n / 100 % 10),
    Nat.digitChar (n / 10 % 10), Nat.digitChar (n % 10)]

/-- The timestamp `datetime.datetime.utcnow().replace(microsecond=0).isoformat() + 'Z'`. -/
def isoZ (t : PyDateTime) : String :=
  pad4 t.year ++ "-" ++ pad2 t.month ++ "-" ++ pad2 t.day ++ "T" ++
    pad2 t.hour ++ ":" ++ pad2 t.minute ++ ":" ++ pad2 t.second ++ "Z"

/-- The commit message `f"{commit_message} - {ts}"`. -/
def commitMsg (cm : String) (t : PyDateTime) : String :=
  cm ++ " - " ++ isoZ t

/-- The literal change-detection command. -/
def statusCmd : String := "git status --porcelain"

/-- The literal staging command. -/
def addCmd : String := "git add -A"

/-- The literal staged-change verification command. -/
def diffCmd : String := "git diff --cached --name-only"

/-- The commit command `f"git commit -m \"{msg}\""`. -/
def commitCmd (cm : String) (t : PyDateTime) : String :=
  "git commit -m \"" ++ commitMsg cm t ++ "\""

/-- The push command `f"git push origin {branch}"`. -/
def pushCmd (branch : String) : String :=
  "git push origin " ++ branch

/-- Environment of one iteration of the `while True:` body: the results of
the up-to-five external commands the body can issue, the two `time.time()`
readings, and the `utcnow()` reading. `commitRet` is the wall-clock instant
at which the commit invocation returned; the reading `now2` is taken after
that, which `clock_le` hypotheses record. -/
structure IterEnv where
  statusRes : CmdRes
  now : ℚ
  addRes : CmdRes
  diffRes : CmdRes
  utc : PyDateTime
  commitRes : CmdRes
  commitRet : ℚ
  now2 : ℚ
  pushRes : CmdRes

/-- Observable outcome of one iteration: the updated `last_commit_time`, the
commands issued in order, and the loop body's log lines. -/
structure IterOut where
  last' : ℚ
  cmds : List String
  logs : List String

/-- One pass of the `while True:` body of `main`, for loop parameters
`debounce`, `commit_message`, `branch`, `push` and current state
`last_commit_time`, in environment `env`. -/
def step (debounce : ℚ) (commit_message branch : String) (push : Bool)
    (last_commit_time : ℚ) (env : IterEnv) : IterOut :=
  if has_worktree_changes env.statusRes then
    if env.now - last_commit_time < debounce then
      ⟨last_commit_time, [statusCmd], ["Changes detected but debouncing..."]⟩
    else if (run env.addRes).1 ≠ 0 then
      ⟨last_commit_time, [statusCmd, addCmd],
        ["git add failed: " ++ (run env.addRes).2]⟩
    else if (run env.diffRes).1 ≠ 0 then
      ⟨last_commit_time, [statusCmd, addCmd, diffCmd],
        ["git diff --cached failed: " ++ (run env.diffRes).2]⟩
    else if pyStrip (run env.diffRes).2 = "" then
      ⟨last_commit_time, [statusCmd, addCmd, diffCmd],
        ["Nothing staged to commit (skipping)."]⟩
    else if (run env.commitRes).1 ≠ 0 then
      ⟨last_commit_time,
        [statusCmd, addCmd, diffCmd, commitCmd commit_message env.utc],
        ["git commit failed: " ++ (run env.commitRes).2]⟩
    else if push then
      if (run env.pushRes).1 ≠ 0 then
        ⟨env.now2,
          [statusCmd, addCmd, diffCmd, commitCmd commit_message env.utc,
            pushCmd branch],
          ["Committed: " ++ commitMsg commit_message env.utc,
            "git push failed: " ++ (run env.pushRes).2]⟩
      else
        ⟨env.now2,
          [statusCmd, addCmd, diffCmd, commitCmd commit_message env.utc,
            pushCmd branch],
          ["Committed: " ++ commitMsg commit_message env.utc,
            "Pushed to origin " ++ branch]⟩
    else
      ⟨env.now2,
        [statusCmd, addCmd, diffCmd, commitCmd commit_message env.utc],
        ["Committed: " ++ commitMsg commit_message env.utc]⟩
  else
    ⟨last_commit_time, [statusCmd], []⟩

/-- Outcome of trying to read the configuration file: Python's
`FileNotFoundError`, any other read or parse exception, or the parsed JSON
object. -/
inductive ReadResult where
  | fileNotFound : ReadResult
  | otherError : String → ReadResult
  | ok : Dict → ReadResult

/-- The `DEFAULT_CONFIG` dict of the script. -/
def DEFAULT_CONFIG : Dict :=
  [("enabled", .bool true),
   ("delay_seconds", .num 2),
   ("debounce_seconds", .num 5),
   ("commit_message", .str "autosave: update"),
   ("branch", .str "main"),
   ("push", .bool true),
   ("include_untracked", .bool true)]

/-- The `load_config` function: on a parsed object it returns
`DEFAULT_CONFIG.copy()` updated with the file's keys; on `FileNotFoundError`
it returns the defaults silently; on any other exception it logs and returns
the defaults. It never raises. -/
def load_config : ReadResult → Dict
  | .ok cfg => dictUpdate DEFAULT_CONFIG cfg
  | .fileNotFound => DEFAULT_CONFIG
  | .otherError _ => DEFAULT_CONFIG

/-- What `main` does before the loop: either `sys.exit(0)` or entry into the
loop carrying the initial `last_commit_time`. -/
inductive StartupResult where
  | exited : Int → StartupResult
  | loops : ℚ → StartupResult

/-- The startup portion of `main`: load the config, set
`last_commit_time = 0`, and exit with status 0 if
`not cfg.get('enabled', True)`; no external command is issued either way
(the second component is the list of commands run before the loop). -/
def mainStartup (r : ReadResult) : StartupResult × List String :=
  let cfg := load_config r
  let last_commit_time : ℚ := 0
  if truthy (dictGetD cfg "enabled" (JsonVal.bool true)) then
    (.loops last_commit_time, [])
  else
    (.exited 0, [])

/-- Consume one character `c` from the front of a list, if present. -/
def lit (c : Char) : List Char → Option (List Char)
  | d :: rest => if d = c then some rest else none
  | [] => none

/-- Consume one ASCII digit from the front of a list, if present. -/
def digit1 : List Char → Option (List Char)
  | d :: rest => if d.isDigit then some rest else none
  | [] => none

/-- Consume a literal character sequence from the front of a list. -/
def litStr : List Char → List Char → Option (List Char)
  | [], l => some l
  | c :: cs, l => (lit c l).bind (litStr cs)

/-- Consume `\d\x7b4\x7d-\d\x7b2\x7d-\d\x7b2\x7dT\d\x7b2\x7d:\d\x7b2\x7d:\d\x7b2\x7dZ` from a character list. -/
def tsChain (l : List Char) : Option (List Char) :=
  (digit1 l).bind digit1 |>.bind digit1 |>.bind digit1 |>.bind (lit '-')
    |>.bind digit1 |>.bind digit1 |>.bind (lit '-')
    |>.bind digit1 |>.bind digit1 |>.bind (lit 'T')
    |>.bind digit1 |>.bind digit1 |>.bind (lit ':')
    |>.bind digit1 |>.bind digit1 |>.bind (lit ':')
    |>.bind digit1 |>.bind digit1 |>.bind (lit 'Z')

/-- Match the timestamp pattern against a whole character list. -/
def tsMatch (l : List Char) : Bool :=
  tsChain l == some []

/-- Match the spec's commit-message pattern
`^autosave: update - \d\x7b4\x7d-\d\x7b2\x7d-\d\x7b2\x7dT\d\x7b2\x7d:\d\x7b2\x7d:\d\x7b2\x7dZ$` against a whole string. -/
def matchesAutosavePattern (s : String) : Bool :=
  match litStr "autosave: update - ".data s.data with
  | some rest => tsMatch rest
  | none => false

/-- A sample iteration environment: changes present, staging and diff clean,
commit and push succeed, clock readings 100 and 101. -/
def envA : IterEnv :=
  { statusRes := Except.ok (0, " M x.txt\n")
    now := 100
    addRes := Except.ok (0, "")
    diffRes := Except.ok (0, "x.txt")
    utc := ⟨2024, 1, 2, 3, 4, 5⟩
    commitRes := Except.ok (0, "1 file changed")
    commitRet := 100
    now2 := 101
    pushRes := Except.ok (0, "ok") }

/-- A sample iteration environment in which the commit command fails. -/
def envB : IterEnv :=
  { envA with commitRes := Except.ok (1, "commit failed") }

/-- A sample iteration environment in which the push command fails. -/
def envC : IterEnv :=
  { envA with pushRes := Except.ok (1, "push rejected") }

/-- A sample iteration environment whose staged-diff query returns only
whitespace, i.e. nothing is staged. -/
def envD : IterEnv :=
  { envA with diffRes := Except.ok (0, "  \n") }

/-- Lookup after `dictSet` is the new value at the set key and unchanged
elsewhere. -/
lemma dictGet_dictSet (d : Dict) (key : String) (v : JsonVal) (k : String) :
    dictGet (dictSet d key v) k = if k = key then some v else dictGet d k := by
  induction d with
  | nil =>
    by_cases h : key = k
    · simp [dictSet, dictGet, h]
    · simp [dictSet, dictGet, h, Ne.symm h]
  | cons p rest ih =>
    obtain ⟨k₁, v₁⟩ := p
    by_cases h₁ : k₁ = key
    · subst h₁
      by_cases h : k₁ = k
      · simp [dictSet, dictGet, h]
      · simp [dictSet, dictGet, h, Ne.symm h]
    · by_cases h : k₁ = k
      · have hkkey : ¬k = key := fun hk => h₁ (h.trans hk)
        simp [dictSet, dictGet, h₁, h, hkkey]
      · simp [dictSet, dictGet, h₁, h, ih]

/-- A key that does not occur in a dict looks up to `none`. -/
lemma dictGet_eq_none_of_not_mem (d : Dict) (k : String)
    (h : k ∉ d.map Prod.fst) : dictGet d k = none := by
  induction d with
  | nil => rfl
  | cons p rest ih =>
    obtain ⟨k₁, v₁⟩ := p
    simp only [List.map_cons, List.mem_cons, not_or] at h
    have hne : ¬k₁ = k := fun h' => h.1 h'.symm
    simp only [dictGet, if_neg hne]
    exact ih h.2

/-- Lookup after `dictUpdate` with unique update keys: keys present in the
update win, all other keys keep their previous binding. -/
lemma dictGet_dictUpdate (cfg : Dict) : ∀ (d : Dict) (k : String),
    (cfg.map Prod.fst).Nodup →
    dictGet (dictUpdate d cfg) k = ((dictGet cfg k).elim (dictGet d k) some) := by
  induction cfg with
  | nil => intro d k _; simp [dictUpdate, dictGet, Option.elim]
  | cons p rest ih =>
    intro d k hnd
    obtain ⟨k₀, v₀⟩ := p
    simp only [List.map, List.nodup_cons] at hnd
    simp only [dictUpdate]
    rw [ih _ _ hnd.2]
    by_cases hk : k₀ = k
    · subst hk
      have hrest : dictGet rest k₀ = none :=
        dictGet_eq_none_of_not_mem _ _ hnd.1
      simp [dictGet, hrest, dictGet_dictSet, Option.elim]
    · simp only [dictGet, if_neg hk]
      cases hg : dictGet rest k with
      | some v => simp [Option.elim]
      | none =>
        have hk' : ¬k = k₀ := fun h => hk h.symm
        simp [Option.elim, dictGet_dictSet, hk']

/-- `dictUpdate` never removes a key. -/
lemma dictGet_dictUpdate_isSome (cfg : Dict) : ∀ (d : Dict) (k : String),
    (dictGet d k).isSome → (dictGet (dictUpdate d cfg) k).isSome := by
  induction cfg with
  | nil => intro d k h; exact h
  | cons p rest ih =>
    intro d k h
    obtain ⟨k₀, v₀⟩ := p
    simp only [dictUpdate]
    apply ih
    rw [dictGet_dictSet]
    by_cases hk : k = k₀ <;> simp [hk, h]

/-- The head surviving a `dropWhile` falsifies the predicate. -/
lemma head?_dropWhile (p : Char → Bool) (l : List Char) :
    ∀ c, (l.dropWhile p).head? = some c → p c = false := by
  induction l with
  | nil => intro c h; cases h
  | cons a l ih =>
    intro c h
    rw [List.dropWhile_cons] at h
    by_cases ha : p a = true
    · exact ih c (by rwa [if_pos ha] at h)
    · rw [if_neg ha] at h
      cases h
      exact Bool.eq_false_iff.mpr ha

/-- A nonempty `dropWhile` result keeps the last element of the list. -/
lemma getLast?_dropWhile (p : Char → Bool) (l : List Char)
    (h : l.dropWhile p ≠ []) : (l.dropWhile p).getLast? = l.getLast? := by
  induction l with
  | nil => simp at h
  | cons a l ih =>
    rw [List.dropWhile_cons]
    by_cases ha : p a = true
    · rw [List.dropWhile_cons, if_pos ha] at h
      rw [if_pos ha, ih h]
      have hl : l ≠ [] := by
        intro hnil
        rw [hnil] at h
        exact h rfl
      cases l with
      | nil => exact absurd rfl hl
      | cons b l => simp [List.getLast?]
    · rw [if_neg ha]

/-- A list whose head falsifies the predicate is unchanged by `dropWhile`. -/
lemma dropWhile_eq_self_of_head? (p : Char → Bool) (l : List Char)
    (h : ∀ c, l.head? = some c → p c = false) : l.dropWhile p = l := by
  cases l with
  | nil => rfl
  | cons a l =>
    rw [List.dropWhile_cons, if_neg]
    simp [h a rfl]

/-- The first character of a stripped list is not whitespace. -/
lemma head?_stripList (l : List Char) :
    ∀ c, (stripList l).head? = some c → isPySpace c = false := by
  intro c hc
  unfold stripList at hc
  rw [List.head?_reverse] at hc
  have hne : (l.dropWhile isPySpace).reverse.dropWhile isPySpace ≠ [] := by
    intro h0
    rw [h0] at hc
    cases hc
  rw [getLast?_dropWhile _ _ hne, List.getLast?_reverse] at hc
  exact head?_dropWhile isPySpace l c hc

/-- The last character of a stripped list is not whitespace. -/
lemma getLast?_stripList (l : List Char) :
    ∀ c, (stripList l).getLast? = some c → isPySpace c = false := by
  intro c hc
  unfold stripList at hc
  rw [List.getLast?_reverse] at hc
  exact head?_dropWhile isPySpace _ c hc

/-- Stripping is idempotent. -/
lemma stripList_idem (l : List Char) : stripList (stripList l) = stripList l := by
  have h1 : (stripList l).dropWhile isPySpace = stripList l :=
    dropWhile_eq_self_of_head? _ _ (head?_stripList l)
  have h2 : (stripList l).reverse.dropWhile isPySpace = (stripList l).reverse := by
    apply dropWhile_eq_self_of_head?
    intro c hc
    rw [List.head?_reverse] at hc
    exact getLast?_stripList l c hc
  show (((stripList l).dropWhile isPySpace).reverse.dropWhile isPySpace).reverse =
    stripList l
  rw [h1, h2, List.reverse_reverse]

/-- Python stripping is idempotent. -/
lemma pyStrip_pyStrip (s : String) : pyStrip (pyStrip s) = pyStrip s := by
  simp [pyStrip, stripList_idem]

/-- Digits produced by zero-padding are ASCII digits. -/
lemma isDigit_digitChar (n : Nat) : (Nat.digitChar (n % 10)).isDigit = true := by
  have h : n % 10 < 10 := Nat.mod_lt _ (by decide)
  generalize n % 10 = m at h
  interval_cases m <;> decide

/-- Consuming a literal sequence off the front of itself succeeds. -/
lemma litStr_append (p rest : List Char) : litStr p (p ++ rest) = some rest := by
  induction p with
  | nil => rfl
  | cons c cs ih => simp [litStr, lit, ih]

/-- The generated timestamp consumes the whole timestamp pattern. -/
lemma tsChain_isoZ (t : PyDateTime) : tsChain (isoZ t).data = some [] := by
  have hdata : (isoZ t).data =
      [Nat.digitChar (t.year / 1000 % 10), Nat.digitChar (t.year / 100 % 10),
       Nat.digitChar (t.year / 10 % 10), Nat.digitChar (t.year % 10), '-',
       Nat.digitChar (t.month / 10 % 10), Nat.digitChar (t.month % 10), '-',
       Nat.digitChar (t.day / 10 % 10), Nat.digitChar (t.day % 10), 'T',
       Nat.digitChar (t.hour / 10 % 10), Nat.digitChar (t.hour % 10), ':',
       Nat.digitChar (t.minute / 10 % 10), Nat.digitChar (t.minute % 10), ':',
       Nat.digitChar (t.second / 10 % 10), Nat.digitChar (t.second % 10), 'Z'] := by
    simp [isoZ, pad4, pad2, String.data_append]
  rw [hdata]
  simp [tsChain, digit1, lit, isDigit_digitChar, Option.some_bind]

/-- The default-prefix commit message matches the spec's autosave pattern. -/
lemma matchesAutosavePattern_commitMsg (t : PyDateTime) :
    matchesAutosavePattern (commitMsg "autosave: update" t) = true := by
  have hdata : (commitMsg "autosave: update" t).data =
      "autosave: update - ".data ++ (isoZ t).data := by
    simp [commitMsg, String.data_append]
  unfold matchesAutosavePattern
  rw [hdata, litStr_append]
  show tsMatch (isoZ t).data = true
  simp [tsMatch, tsChain_isoZ]

section StepLemmas

variable (debounce : ℚ) (cm br : String) (push : Bool) (last : ℚ) (env : IterEnv)

/-- No detected changes: the iteration only runs the status query. -/
lemma step_no_changes (h : has_worktree_changes env.statusRes = false) :
    step debounce cm br push last env = ⟨last, [statusCmd], []⟩ := by
  simp [step, h]

/-- Debounce branch: changes detected too soon after the last commit. -/
lemma step_debounce (hchg : has_worktree_changes env.statusRes = true)
    (hlt : env.now - last < debounce) :
    step debounce cm br push last env =
      ⟨last, [statusCmd], ["Changes detected but debouncing..."]⟩ := by
  simp [step, hchg, hlt]

/-- Staging failure branch. -/
lemma step_add_fail (hchg : has_worktree_changes env.statusRes = true)
    (hnlt : ¬env.now - last < debounce) (ha : (run env.addRes).1 ≠ 0) :
    step debounce cm br push last env =
      ⟨last, [statusCmd, addCmd], ["git add failed: " ++ (run env.addRes).2]⟩ := by
  simp [step, hchg, hnlt, ha]

/-- Staged-diff query failure branch. -/
lemma step_diff_fail (hchg : has_worktree_changes env.statusRes = true)
    (hnlt : ¬env.now - last < debounce) (ha : (run env.addRes).1 = 0)
    (hd : (run env.diffRes).1 ≠ 0) :
    step debounce cm br push last env =
      ⟨last, [statusCmd, addCmd, diffCmd],
        ["git diff --cached failed: " ++ (run env.diffRes).2]⟩ := by
  simp [step, hchg, hnlt, ha, hd]

/-- Nothing-staged branch: staging succeeded but the staged diff is empty. -/
lemma step_nothing_staged (hchg : has_worktree_changes env.statusRes = true)
    (hnlt : ¬env.now - last < debounce) (ha : (run env.addRes).1 = 0)
    (hd : (run env.diffRes).1 = 0) (hempty : pyStrip (run env.diffRes).2 = "") :
    step debounce cm br push last env =
      ⟨last, [statusCmd, addCmd, diffCmd],
        ["Nothing staged to commit (skipping)."]⟩ := by
  simp [step, hchg, hnlt, ha, hd, hempty]

/-- Commit failure branch. -/
lemma step_commit_fail (hchg : has_worktree_changes env.statusRes = true)
    (hnlt : ¬env.now - last < debounce) (ha : (run env.addRes).1 = 0)
    (hd : (run env.diffRes).1 = 0) (hne : pyStrip (run env.diffRes).2 ≠ "")
    (hc : (run env.commitRes).1 ≠ 0) :
    step debounce cm br push last env =
      ⟨last, [statusCmd, addCmd, diffCmd, commitCmd cm env.utc],
        ["git commit failed: " ++ (run env.commitRes).2]⟩ := by
  simp [step, hchg, hnlt, ha, hd, hne, hc]

/-- Commit success: the new `last_commit_time` is the post-commit clock
reading, and the command trace is status, add, diff, commit, and the push
command exactly when `push` is set. -/
lemma step_commit_ok (hchg : has_worktree_changes env.statusRes = true)
    (hnlt : ¬env.now - last < debounce) (ha : (run env.addRes).1 = 0)
    (hd : (run env.diffRes).1 = 0) (hne : pyStrip (run env.diffRes).2 ≠ "")
    (hc : (run env.commitRes).1 = 0) :
    (step debounce cm br push last env).last' = env.now2 ∧
    (step debounce cm br push last env).cmds =
      [statusCmd, addCmd, diffCmd, commitCmd cm env.utc] ++
        (if push then [pushCmd br] else []) := by
  cases push with
  | false => simp [step, hchg, hnlt, ha, hd, hne, hc]
  | true =>
    by_cases hp : (run env.pushRes).1 = 0 <;>
      simp [step, hchg, hnlt, ha, hd, hne, hc, hp]

/-- After the debounce gate passes, the staging command is always issued. -/
lemma addCmd_mem_step (hchg : has_worktree_changes env.statusRes = true)
    (hnlt : ¬env.now - last < debounce) :
    addCmd ∈ (step debounce cm br push last env).cmds := by
  by_cases ha : (run env.addRes).1 = 0
  · by_cases hd : (run env.diffRes).1 = 0
    · by_cases hempty : pyStrip (run env.diffRes).2 = ""
      · rw [step_nothing_staged debounce cm br push last env hchg hnlt ha hd hempty]
        simp
      · by_cases hc : (run env.commitRes).1 = 0
        · rw [(step_commit_ok debounce cm br push last env hchg hnlt ha hd hempty hc).2]
          simp
        · rw [step_commit_fail debounce cm br push last env hchg hnlt ha hd hempty hc]
          simp
    · rw [step_diff_fail debounce cm br push last env hchg hnlt ha hd]
      simp
  · rw [step_add_fail debounce cm br push last env hchg hnlt ha]
    simp

/-- When the commit point is reached, the commit command is in the trace. -/
lemma commitCmd_mem_step (hchg : has_worktree_changes env.statusRes = true)
    (hnlt : ¬env.now - last < debounce) (ha : (run env.addRes).1 = 0)
    (hd : (run env.diffRes).1 = 0) (hne : pyStrip (run env.diffRes).2 ≠ "") :
    commitCmd cm env.utc ∈ (step debounce cm br push last env).cmds := by
  by_cases hc : (run env.commitRes).1 = 0
  · rw [(step_commit_ok debounce cm br push last env hchg hnlt ha hd hne hc).2]
    simp
  · rw [step_commit_fail debounce cm br push last env hchg hnlt ha hd hne hc]
    simp

/-- In every iteration, `last_commit_time` is either left unchanged or the
commit command succeeded and it becomes the post-commit clock reading. -/
lemma step_last_eq_or :
    (step debounce cm br push last env).last' = last ∨
    ((run env.commitRes).1 = 0 ∧
      (step debounce cm br push last env).last' = env.now2) := by
  by_cases hchg : has_worktree_changes env.statusRes = true
  · by_cases hlt : env.now - last < debounce
    · left
      rw [step_debounce debounce cm br push last env hchg hlt]
    · by_cases ha : (run env.addRes).1 = 0
      · by_cases hd : (run env.diffRes).1 = 0
        · by_cases hempty : pyStrip (run env.diffRes).2 = ""
          · left
            rw [step_nothing_staged debounce cm br push last env hchg hlt ha hd hempty]
          · by_cases hc : (run env.commitRes).1 = 0
            · right
              exact ⟨hc, (step_commit_ok debounce cm br push last env hchg hlt ha hd hempty hc).1⟩
            · left
              rw [step_commit_fail debounce cm br push last env hchg hlt ha hd hempty hc]
        · left
          rw [step_diff_fail debounce cm br push last env hchg hlt ha hd]
      · left
        rw [step_add_fail debounce cm br push last env hchg hlt ha]
  · left
    rw [step_no_changes debounce cm br push last env (Bool.eq_false_iff.mpr hchg)]

end StepLemmas

/-- C1: with changes detected and the last successful commit at time `T`,
an evaluation whose clock reading `env.now` satisfies `env.now - T < D`
runs neither the staging nor the commit command (the iteration issues only
the status query) and logs the debouncing message; an evaluation with
`D ≤ env.now - T` proceeds to run the stage-all command. -/
theorem c1_debounce_gates_staging (D : ℚ) (cm br : String) (push : Bool)
    (T : ℚ) (env : IterEnv)
    (hchg : has_worktree_changes env.statusRes = true) :
    (env.now - T < D →
      (step D cm br push T env).cmds = [statusCmd] ∧
      (step D cm br push T env).logs = ["Changes detected but debouncing..."]) ∧
    (D ≤ env.now - T → addCmd ∈ (step D cm br push T env).cmds) := by
  constructor
  · intro hlt
    rw [step_debounce D cm br push T env hchg hlt]
    exact ⟨rfl, rfl⟩
  · intro hge
    exact addCmd_mem_step D cm br push T env hchg (not_lt.mpr hge)

/-- C1 witness: in `envA` (changes present, `env.now = 100`), with
`D = 5` and `T = 99` the iteration only runs the status query, while with
`T = 0` it runs the stage-all command. -/
theorem c1_witness :
    (has_worktree_changes envA.statusRes = true ∧
      envA.now - 99 < 5 ∧
      (step 5 "autosave: update" "main" true 99 envA).cmds = [statusCmd]) ∧
    ((5 : ℚ) ≤ envA.now - 0 ∧
      addCmd ∈ (step 5 "autosave: update" "main" true 0 envA).cmds) := by
  refine ⟨⟨rfl, by norm_num [envA], ?_⟩, by norm_num [envA], ?_⟩
  · exact ((c1_debounce_gates_staging 5 "autosave: update" "main" true 99 envA
      rfl).1 (by norm_num [envA])).1
  · exact (c1_debounce_gates_staging 5 "autosave: update" "main" true 0 envA
      rfl).2 (by norm_num [envA])

/-- C2: `last_commit_time` changes only when the commit command succeeds:
a failed commit leaves it unchanged; in general it is either unchanged or
the commit succeeded and it equals the post-commit clock reading
`env.now2`, which under clock monotonicity (`env.commitRet ≤ env.now2`,
the second `time.time()` call happens after the commit call returned) is
at least the time the commit call returned; and on a reached, successful
commit it is set to `env.now2` for every push outcome (the environment's
push result is arbitrary, so a failing push does not affect it). -/
theorem c2_last_commit_time_update (D : ℚ) (cm br : String) (push : Bool)
    (last : ℚ) (env : IterEnv) (hclock : env.commitRet ≤ env.now2) :
    ((run env.commitRes).1 ≠ 0 → (step D cm br push last env).last' = last) ∧
    ((step D cm br push last env).last' = last ∨
      ((run env.commitRes).1 = 0 ∧
        (step D cm br push last env).last' = env.now2 ∧
        env.commitRet ≤ (step D cm br push last env).last')) ∧
    (has_worktree_changes env.statusRes = true → ¬env.now - last < D →
      (run env.addRes).1 = 0 → (run env.diffRes).1 = 0 →
      pyStrip (run env.diffRes).2 ≠ "" → (run env.commitRes).1 = 0 →
      (step D cm br push last env).last' = env.now2) := by
  refine ⟨?_, ?_, ?_⟩
  · intro hc
    rcases step_last_eq_or D cm br push last env with h | ⟨hc0, _⟩
    · exact h
    · exact absurd hc0 hc
  · rcases step_last_eq_or D cm br push last env with h | ⟨hc0, h2⟩
    · exact Or.inl h
    · refine Or.inr ⟨hc0, h2, ?_⟩
      rw [h2]
      exact hclock
  · intro hchg hnlt ha hd hne hc
    exact (step_commit_ok D cm br push last env hchg hnlt ha hd hne hc).1

/-- C2 witness: with the failed commit of `envB` the state stays `0`; with
the successful commit of `envA` it becomes the post-commit reading `101`;
with the failing push of `envC` it still becomes `101`. -/
theorem c2_witness :
    (envB.commitRet ≤ envB.now2 ∧ (run envB.commitRes).1 ≠ 0 ∧
      (step 5 "autosave: update" "main" true 0 envB).last' = 0) ∧
    ((step 5 "autosave: update" "main" true 0 envA).last' = envA.now2) ∧
    ((step 5 "autosave: update" "main" true 0 envC).last' = envC.now2) := by
  refine ⟨⟨by norm_num [envB, envA], by decide, ?_⟩, ?_, ?_⟩
  · exact (c2_last_commit_time_update 5 "autosave: update" "main" true 0 envB
      (by norm_num [envB, envA])).1 (by decide)
  · exact (c2_last_commit_time_update 5 "autosave: update" "main" true 0 envA
      (by norm_num [envA])).2.2 rfl (by norm_num [envA]) rfl rfl (by decide) rfl
  · exact (c2_last_commit_time_update 5 "autosave: update" "main" true 0 envC
      (by norm_num [envC, envA])).2.2 rfl (by norm_num [envC, envA]) rfl rfl
      (by decide) rfl

/-- C3: when staging succeeds but the staged-diff query succeeds with empty
(whitespace-only) output, the iteration issues exactly the status, add and
diff commands — no commit command — logs the no-op message, and leaves
`last_commit_time` unchanged. -/
theorem c3_nothing_staged_skips_commit (D : ℚ) (cm br : String) (push : Bool)
    (last : ℚ) (env : IterEnv)
    (hchg : has_worktree_changes env.statusRes = true)
    (hnlt : ¬env.now - last < D) (ha : (run env.addRes).1 = 0)
    (hd : (run env.diffRes).1 = 0)
    (hempty : pyStrip (run env.diffRes).2 = "") :
    (step D cm br push last env).cmds = [statusCmd, addCmd, diffCmd] ∧
    (step D cm br push last env).logs = ["Nothing staged to commit (skipping)."] ∧
    (step D cm br push last env).last' = last := by
  rw [step_nothing_staged D cm br push last env hchg hnlt ha hd hempty]
  exact ⟨rfl, rfl, rfl⟩

/-- C3 witness: in `envD` the staged diff is whitespace-only and the
iteration stops after the diff query. -/
theorem c3_witness :
    pyStrip (run envD.diffRes).2 = "" ∧
    (step 5 "autosave: update" "main" true 0 envD).cmds =
      [statusCmd, addCmd, diffCmd] := by
  refine ⟨by decide, ?_⟩
  exact (c3_nothing_staged_skips_commit 5 "autosave: update" "main" true 0 envD
    rfl (by norm_num [envD, envA]) rfl rfl (by decide)).1

/-- C4 counterexample: the status command exits 0 producing the non-empty
output `" "`, yet `has_worktree_changes` returns false — so on a zero exit
the function is not `true` exactly when the raw output is non-empty. -/
theorem c4_counterexample :
    has_worktree_changes (Except.ok ((0 : Int), " ")) = false ∧
    (" " : String) ≠ "" := by
  decide

/-- C4 (amended): `has_worktree_changes` returns false whenever the status
command exits non-zero (or fails to launch), regardless of output; on a
zero exit it returns true iff the command's output is non-empty after
stripping whitespace. -/
theorem c4_detector_contract (c : Int) (out e : String) :
    (c ≠ 0 → has_worktree_changes (Except.ok (c, out)) = false) ∧
    has_worktree_changes (Except.error e) = false ∧
    (c = 0 → (has_worktree_changes (Except.ok (c, out)) = true ↔
      pyStrip out ≠ "")) := by
  refine ⟨?_, ?_, ?_⟩
  · intro hc
    simp [has_worktree_changes, run, hc]
  · simp [has_worktree_changes, run]
  · intro hc
    subst hc
    show (if (run (Except.ok ((0 : Int), out))).1 ≠ 0 then false
      else pyStrip (run (Except.ok ((0 : Int), out))).2 != "") = true ↔
      pyStrip out ≠ ""
    simp [run, pyStrip_pyStrip]

/-- C4 witness: non-zero exit with non-empty output gives false; zero exit
with output `"y"` gives true since `"y"` strips to itself. -/
theorem c4_witness :
    ((1 : Int) ≠ 0 ∧ has_worktree_changes (Except.ok ((1 : Int), "x")) = false) ∧
    ((0 : Int) = 0 ∧ (has_worktree_changes (Except.ok ((0 : Int), "y")) = true ↔
      pyStrip "y" ≠ "")) := by
  refine ⟨⟨by decide, ?_⟩, rfl, ?_⟩
  · exact (c4_detector_contract 1 "x" "e").1 (by decide)
  · exact (c4_detector_contract 0 "y" "e").2.2 rfl

/-- C5: every commit command the loop builds carries the message
`commit_message ++ " - " ++ isoZ utc` — the configured prefix, a literal
`" - "`, and the second-precision UTC ISO-8601 timestamp with trailing
`Z` — and with the default prefix that message matches the pattern
`autosave: update - dddd-dd-ddTdd:dd:ddZ`. -/
theorem c5_commit_message_format (D : ℚ) (cm br : String) (push : Bool)
    (last : ℚ) (env : IterEnv)
    (hchg : has_worktree_changes env.statusRes = true)
    (hnlt : ¬env.now - last < D) (ha : (run env.addRes).1 = 0)
    (hd : (run env.diffRes).1 = 0)
    (hne : pyStrip (run env.diffRes).2 ≠ "") :
    commitCmd cm env.utc =
      "git commit -m \"" ++ (cm ++ " - " ++ isoZ env.utc) ++ "\"" ∧
    commitCmd cm env.utc ∈ (step D cm br push last env).cmds ∧
    matchesAutosavePattern (commitMsg "autosave: update" env.utc) = true :=
  ⟨rfl, commitCmd_mem_step D cm br push last env hchg hnlt ha hd hne,
    matchesAutosavePattern_commitMsg env.utc⟩

/-- C5 witness: in `envA` the commit command is issued and the default
message for 2024-01-02T03:04:05 matches the pattern. -/
theorem c5_witness :
    matchesAutosavePattern (commitMsg "autosave: update" envA.utc) = true ∧
    commitCmd "autosave: update" envA.utc ∈
      (step 5 "autosave: update" "main" true 0 envA).cmds := by
  refine ⟨?_, ?_⟩
  · exact (c5_commit_message_format 5 "autosave: update" "main" true 0 envA
      rfl (by norm_num [envA]) rfl rfl (by decide)).2.2
  · exact (c5_commit_message_format 5 "autosave: update" "main" true 0 envA
      rfl (by norm_num [envA]) rfl rfl (by decide)).2.1

/-- C6: for a parsed config object (unique keys, as `json.load` yields),
`load_config` returns the defaults overridden exactly by the keys present:
a key bound in the file reads back its file value, and a key absent from
the file reads back its `DEFAULT_CONFIG` value — key-wise override with no
cross-key leakage. -/
theorem c6_config_keywise_override (cfg : Dict) (k : String)
    (hnd : (cfg.map Prod.fst).Nodup) :
    (∀ v, dictGet cfg k = some v →
      dictGet (load_config (ReadResult.ok cfg)) k = some v) ∧
    (dictGet cfg k = none →
      dictGet (load_config (ReadResult.ok cfg)) k = dictGet DEFAULT_CONFIG k) := by
  constructor
  · intro v hv
    show dictGet (dictUpdate DEFAULT_CONFIG cfg) k = some v
    rw [dictGet_dictUpdate cfg DEFAULT_CONFIG k hnd, hv]
    rfl
  · intro hv
    show dictGet (dictUpdate DEFAULT_CONFIG cfg) k = dictGet DEFAULT_CONFIG k
    rw [dictGet_dictUpdate cfg DEFAULT_CONFIG k hnd, hv]
    rfl

/-- C6 witness: the config `{push: false}` overrides `push` and leaves
`enabled` at its default. -/
theorem c6_witness :
    dictGet (load_config (ReadResult.ok [("push", JsonVal.bool false)]))
      "push" = some (JsonVal.bool false) ∧
    dictGet (load_config (ReadResult.ok [("push", JsonVal.bool false)]))
      "enabled" = dictGet DEFAULT_CONFIG "enabled" :=
  ⟨(c6_config_keywise_override [("push", JsonVal.bool false)] "push"
      (by simp)).1 (JsonVal.bool false) rfl,
    (c6_config_keywise_override [("push", JsonVal.bool false)] "enabled"
      (by simp)).2 rfl⟩

/-- C7: `load_config` is a total function — never an exception to the
caller: on a missing file it returns exactly the hard-coded defaults, on
any other read or parse failure it returns the defaults, and on success
its result still binds every key the default record binds, so every call
yields a fully-populated configuration. -/
theorem c7_load_config_total (e : String) (cfg : Dict) (k : String) :
    load_config ReadResult.fileNotFound = DEFAULT_CONFIG ∧
    load_config (ReadResult.otherError e) = DEFAULT_CONFIG ∧
    ((dictGet DEFAULT_CONFIG k).isSome = true →
      (dictGet (load_config (ReadResult.ok cfg)) k).isSome = true) := by
  refine ⟨rfl, rfl, ?_⟩
  intro h
  exact dictGet_dictUpdate_isSome cfg DEFAULT_CONFIG k h

/-- C7 witness: the defaults carry `branch`, and a config overriding
`enabled` still yields a record binding `branch`. -/
theorem c7_witness :
    load_config ReadResult.fileNotFound = DEFAULT_CONFIG ∧
    (dictGet (load_config (ReadResult.ok [("enabled", JsonVal.bool false)]))
      "branch").isSome = true :=
  ⟨(c7_load_config_total "boom" [] "k").1,
    (c7_load_config_total "boom" [("enabled", JsonVal.bool false)]
      "branch").2.2 rfl⟩

/-- C8: `run` is total — it never raises: a completed command's non-zero
(or zero) status is returned as the normal pair of status code and captured

combined output text (stripped), and a launch failure is converted to the
synthetic failure status `1` paired with the exception text. -/
theorem c8_run_contract (c : Int) (out e : String) :
    run (Except.ok (c, out)) = (c, pyStrip out) ∧
    run (Except.error e) = (1, e) :=
  ⟨rfl, rfl⟩

/-- C9: if the loaded configuration binds `enabled` to `false`, startup
exits with status 0 before entering the loop, issuing no status, add,
diff, commit, or push command (the enabled check is part of `mainStartup`,
run once; the per-iteration `step` takes no enabled parameter at all). -/
theorem c9_disabled_exits (r : ReadResult)
    (h : dictGet (load_config r) "enabled" = some (JsonVal.bool false)) :
    mainStartup r = (StartupResult.exited 0, []) := by
  simp [mainStartup, dictGetD, h, truthy]

/-- C9 witness: the config `{enabled: false}` exits with status 0, no
commands issued. -/
theorem c9_witness :
    mainStartup (ReadResult.ok [("enabled", JsonVal.bool false)]) =
      (StartupResult.exited 0, []) :=
  c9_disabled_exits (ReadResult.ok [("enabled", JsonVal.bool false)]) rfl

/-- C10: startup initialises `last_commit_time` to 0, so when the loop is
entered, the first detected-change evaluation passes the debounce gate for
every `debounce_seconds` not exceeding the current clock reading
(`D ≤ env.now` means `env.now - 0 < D` is false) and proceeds to run the
stage-all command: the first commit attempt is never suppressed by
debouncing. -/
theorem c10_initial_debounce (r : ReadResult)
    (hen : truthy (dictGetD (load_config r) "enabled" (JsonVal.bool true)) = true)
    (D : ℚ) (cm br : String) (push : Bool) (env : IterEnv)
    (hchg : has_worktree_changes env.statusRes = true)
    (hD : D ≤ env.now) :
    mainStartup r = (StartupResult.loops 0, []) ∧
    addCmd ∈ (step D cm br push 0 env).cmds := by
  constructor
  · simp [mainStartup, hen]
  · apply addCmd_mem_step D cm br push 0 env hchg
    rw [sub_zero]
    exact not_lt.mpr hD

/-- C10 witness: with an absent-keys config the loop is entered with
`last_commit_time = 0`, and in `envA` (clock 100, debounce 5) the first
evaluation stages. -/
theorem c10_witness :
    mainStartup (ReadResult.ok []) = (StartupResult.loops 0, []) ∧
    addCmd ∈ (step 5 "autosave: update" "main" true 0 envA).cmds :=
  c10_initial_debounce (ReadResult.ok []) rfl 5 "autosave: update" "main"
    true envA rfl (by norm_num [envA])

end Autocommit
